import Mathlib

/-!
Shallow embedding of the browser-recording-to-tool pipeline implemented in
src/shared/legacy-streamlit-pages/recorder.py, and proofs of the specified
properties of its connection gate, session lifecycle manager, tool generator
and tool persister.

Network and filesystem interactions are modelled by passing the observed
outcome of each HTTP request as an argument and by returning a trace of
attempted side effects, so that the number of backend requests and file
writes performed by each operation can be stated and proved.
-/

namespace RecorderPipeline

/-- Base URL of the backend HTTP API (BACKEND_API_URL in recorder.py). -/
def BACKEND_API_URL : String := "http://localhost:8100"

/-- Outcome of one HTTP request as observed by the client: either a
transport-level exception (timeout, connection refused, ...) or a response
carrying a status code and a parsed body of type alpha.  A body of
Option shape uses none for a response whose body could not be parsed as
the expected JSON (requests raising inside response.json or a missing key,
which the source code catches with its surrounding except handler). -/
inductive HttpOutcome (α : Type) where
  | exn : HttpOutcome α
  | response (status : Nat) (body : α) : HttpOutcome α
deriving Repr, DecidableEq

/-- A transport failure in the sense of the spec: an exception or a
non-200 HTTP status. -/
def HttpOutcome.isFailure {α : Type} : HttpOutcome α → Bool
  | .exn => true
  | .response status _ => status != 200

/-- Side effects attempted by the pipeline: backend requests, directory
creation and file writes.  An effect is recorded when the corresponding
operation is carried out by the code path being modelled. -/
inductive Effect where
  | netPost (url : String)
  | netGet (url : String)
  | mkdir (path : String)
  | fileWrite (path : String) (content : String)
deriving Repr, DecidableEq

/-- Whether an effect is a network request. -/
def Effect.isNetwork : Effect → Bool
  | .netPost _ => true
  | .netGet _ => true
  | _ => false

/-- Whether an effect is a file write. -/
def Effect.isFileWrite : Effect → Bool
  | .fileWrite _ _ => true
  | _ => false

/-- Whether an effect touches the filesystem. -/
def Effect.isFilesystem : Effect → Bool
  | .mkdir _ => true
  | .fileWrite _ _ => true
  | _ => false

/-- JSON body of GET /extension/status as read by the client; each field is
optional because the source reads it with status_data.get(field, False). -/
structure ExtensionStatusBody where
  connected : Option Bool
  websocketReady : Option Bool
deriving Repr, DecidableEq

/-- Connection status dictionary returned by check_extension_connection. -/
structure ConnectionStatus where
  api_connected : Bool
  websocket_ready : Bool
  fully_connected : Bool
  recording_ready : Bool
  tool_execution_ready : Bool
deriving Repr, DecidableEq

/-- The all-false status dictionary returned from the except branch of
check_extension_connection (recorder.py lines 80-86). -/
def allFalseStatus : ConnectionStatus :=
  { api_connected := false, websocket_ready := false, fully_connected := false,
    recording_ready := false, tool_execution_ready := false }

/-- The status dictionary built at recorder.py lines 72-78 from the raw
api_connected and websocket_ready booleans: recording readiness needs only
the HTTP channel, tool execution needs both channels. -/
def mkConnectionStatus (api ws : Bool) : ConnectionStatus :=
  { api_connected := api, websocket_ready := ws, fully_connected := api,
    recording_ready := api, tool_execution_ready := api && ws }

/-- check_extension_connection (recorder.py lines 57-86): issues one GET to
/extension/status; on a 200 response reads connected and websocketReady with
a false default, on any other status treats both as false, and on any raised
exception (transport error or unparseable body) returns the all-false
status. -/
def check_extension_connection
    (o : HttpOutcome (Option ExtensionStatusBody)) : ConnectionStatus :=
  match o with
  | .exn => allFalseStatus
  | .response status body =>
    if status = 200 then
      match body with
      | none => allFalseStatus
      | some b => mkConnectionStatus (b.connected.getD false) (b.websocketReady.getD false)
    else
      mkConnectionStatus false false

/-- One recorded action of a session; description is optional because the
source reads it with action.get, defaulting when absent. -/
structure RecordedAction where
  actionType : String
  description : Option String
deriving Repr, DecidableEq

/-- A recording session object as returned by the backend. -/
structure RecordingSession where
  id : String
  name : String
  status : String
  actionsCount : Nat
  duration : Nat
  actions : List RecordedAction
deriving Repr, DecidableEq

/-- The ephemeral per-client session state kept in st.session_state by the
session lifecycle manager: the active-session identifiers and the last
completed session slot. -/
structure ClientState where
  recording_session_id : Option String
  recording_session_name : Option String
  last_completed_session : Option RecordingSession
deriving Repr, DecidableEq

/-- JSON body of a successful POST /recorder/start response. -/
structure StartBody where
  sessionId : String
  message : String
deriving Repr, DecidableEq

/-- User-visible outcome of start_recording_with_extension. -/
inductive StartOutcome where
  | started (message : String)
  | failed (errorMessage : String)
deriving Repr, DecidableEq

/-- Whether a start outcome is a displayed error. -/
def StartOutcome.isError : StartOutcome → Bool
  | .failed _ => true
  | _ => false

/-- start_recording_with_extension (recorder.py lines 697-731): POSTs to
/recorder/start; on a 200 response stores the returned sessionId and the
given session name in client state and reports the returned message; on a
non-200 status, an unparseable body or a transport exception it reports an
error and leaves the client state untouched. -/
def start_recording_with_extension
    (sessionName _description : String)
    (resp : HttpOutcome (Option StartBody)) (st : ClientState) :
    ClientState × StartOutcome × List Effect :=
  let eff := [Effect.netPost (BACKEND_API_URL ++ "/recorder/start")]
  match resp with
  | .exn => (st, .failed "Error starting recording", eff)
  | .response status body =>
    if status = 200 then
      match body with
      | some b =>
        ({ st with recording_session_id := some b.sessionId,
                   recording_session_name := some sessionName },
         .started b.message, eff)
      | none => (st, .failed "Error starting recording", eff)
    else
      (st, .failed "Failed to start recording", eff)

/-- User-visible outcome of stop_recording. -/
inductive StopOutcome where
  | stopped (name : String) (actionsCount : Nat) (durationSeconds : Nat)
  | failed (errorMessage : String)
deriving Repr, DecidableEq

/-- Whether a stop outcome is a displayed error. -/
def StopOutcome.isError : StopOutcome → Bool
  | .failed _ => true
  | _ => false

/-- stop_recording (recorder.py lines 767-790): POSTs to /recorder/stop with
no session id; on a 200 response stores the returned session object in the
last_completed_session slot, deletes both active-session identifiers and
reports name, action count and duration; on a non-200 status, an
unparseable body or a transport exception it reports an error and leaves
the client state untouched. -/
def stop_recording
    (resp : HttpOutcome (Option RecordingSession)) (st : ClientState) :
    ClientState × StopOutcome × List Effect :=
  let eff := [Effect.netPost (BACKEND_API_URL ++ "/recorder/stop")]
  match resp with
  | .exn => (st, .failed "Error stopping recording", eff)
  | .response status body =>
    if status = 200 then
      match body with
      | some session =>
        ({ recording_session_id := none, recording_session_name := none,
           last_completed_session := some session },
         .stopped session.name session.actionsCount (session.duration / 1000), eff)
      | none => (st, .failed "Error stopping recording", eff)
    else
      (st, .failed "Failed to stop recording", eff)

/-- User-visible outcome of get_recording_status. -/
inductive PollOutcome where
  | noSession
  | captured (actionsCount : Nat) (recentActions : List RecordedAction)
  | noActionsYet
  | statusWarning (status : Nat)
  | errorMessage (m : String)
deriving Repr, DecidableEq

/-- The action count reported to the user by a poll outcome: the captured
branch reports the count directly, the no-actions branch reports that zero
actions were captured, the other branches report nothing. -/
def PollOutcome.reportedCount : PollOutcome → Option Nat
  | .captured n _ => some n
  | .noActionsYet => some 0
  | _ => none

/-- The list of actions displayed by a poll outcome, in display order. -/
def PollOutcome.displayedActions : PollOutcome → List RecordedAction
  | .captured _ l => l
  | _ => []

/-- get_recording_status (recorder.py lines 733-761): returns immediately
when no recording_session_id is held; otherwise GETs the session by id and,
on a 200 response, reports the length of the actions list and shows the
last five actions (the Python slice actions[-5:], i.e. drop (n - 5)) in
list order, or a no-actions message when the list is empty.  The function
never modifies client state. -/
def get_recording_status
    (resp : HttpOutcome (Option RecordingSession)) (st : ClientState) :
    ClientState × PollOutcome × List Effect :=
  match st.recording_session_id with
  | none => (st, .noSession, [])
  | some sessionId =>
    let eff := [Effect.netGet (BACKEND_API_URL ++ "/recorder/sessions/" ++ sessionId)]
    match resp with
    | .exn => (st, .errorMessage "Error getting recording status", eff)
    | .response status body =>
      if status = 200 then
        match body with
        | some session =>
          let n := session.actions.length
          if 0 < n then
            (st, .captured n (session.actions.drop (n - 5)), eff)
          else
            (st, .noActionsYet, eff)
        | none => (st, .errorMessage "Error getting recording status", eff)
      else
        (st, .statusWarning status, eff)

/-- The start button gating at recorder.py line 340: the button is disabled
unless the connection status says recording_ready and the session name is
non-empty. -/
def start_button_disabled (conn : ConnectionStatus) (sessionName : String) : Bool :=
  !conn.recording_ready || sessionName == ""

/-- The click handler at recorder.py lines 341-352: when the button is
enabled and pressed, an empty name or a not-fully-connected status is
rejected with an error and otherwise start_recording_with_extension is
invoked.  The result is whether a session-create request is issued. -/
def start_click_issues_request (conn : ConnectionStatus) (sessionName : String) : Bool :=
  if start_button_disabled conn sessionName then false
  else if sessionName == "" then false
  else if !conn.fully_connected then false
  else true

/-- A cached generated tool, the value stored under
tool_generation_sessionId in st.session_state (recorder.py lines 1007-1012). -/
structure GeneratedToolEntry where
  tool_code : String
  tool_name : String
  tool_description : String
deriving Repr, DecidableEq

/-- The slice of st.session_state holding tool generation results, keyed by
session id. -/
structure GenerationState where
  cache : List (String × GeneratedToolEntry)
deriving Repr, DecidableEq

/-- Lookup of the tool_generation key for a session id. -/
def GenerationState.lookup (st : GenerationState) (sessionId : String) :
    Option GeneratedToolEntry :=
  st.cache.lookup sessionId

/-- User-visible outcome of generate_tool_code. -/
inductive GenerateOutcome where
  | generated (toolCode : String)
  | httpFailed (status : Nat)
  | errorMessage (m : String)
deriving Repr, DecidableEq

/-- generate_tool_code (recorder.py lines 998-1016): when no cached entry
exists for the session id, POSTs to /recorder/sessions/id/generate-tool and,
on a 200 response, caches the returned toolCode together with a default
name seeded from the first six characters of the session id and a generic
description; a non-200 status or exception is reported without caching.
When a cached entry exists, the backend is not contacted and the cached
tool code is used. -/
def generate_tool_code (sessionId : String)
    (resp : HttpOutcome (Option String)) (st : GenerationState) :
    GenerationState × GenerateOutcome × List Effect :=
  match st.lookup sessionId with
  | some entry => (st, .generated entry.tool_code, [])
  | none =>
    let eff := [Effect.netPost (BACKEND_API_URL ++ "/recorder/sessions/"
                  ++ sessionId ++ "/generate-tool")]
    match resp with
    | .exn => (st, .errorMessage "Error generating tool", eff)
    | .response status body =>
      if status = 200 then
        match body with
        | some code =>
          let entry : GeneratedToolEntry :=
            { tool_code := code,
              tool_name := "browser_automation_" ++ sessionId.take 6,
              tool_description :=
                "Automated browser workflow generated from recorded session" }
          ({ cache := (sessionId, entry) :: st.cache }, .generated code, eff)
        | none => (st, .errorMessage "Error generating tool", eff)
      else
        (st, .httpFailed status, eff)

/-- The alphabet string.ascii_lowercase + string.digits used for random
filename suffixes (recorder.py line 944). -/
def ALPHANUM_LOWER : List Char :=
  "abcdefghijklmnopqrstuvwxyz0123456789".toList

/-- random.choices(string.ascii_lowercase + string.digits, k=8) at
recorder.py line 944, modelled as a deterministic choice driven by a seed:
one alphabet index per position. -/
def random_suffix (seed : Nat) : String :=
  String.mk ((List.range 8).map fun i => ALPHANUM_LOWER.getD ((seed / 36 ^ i) % 36) 'a')

/-- The randomized tool file name browser_tool_suffix.py
(recorder.py line 945). -/
def clean_name (seed : Nat) : String :=
  "browser_tool_" ++ random_suffix seed ++ ".py"

/-- clean_name.replace(".py", "_metadata.json") at recorder.py line 989: the
only occurrence of ".py" in clean_name is the final extension, since neither
the fixed prefix nor the lowercase-alphanumeric suffix contains a dot, so
the replacement yields the sibling metadata file name. -/
def metadata_file_name (seed : Nat) : String :=
  "browser_tool_" ++ random_suffix seed ++ "_metadata.json"

/-- The fixed tools directory os.path.join(dirname, .., agent-resources,
tools) of recorder.py line 969, modelled as a constant path. -/
def TOOLS_DIR : String := "../agent-resources/tools"

/-- The enhanced tool source written by save_local_copy (recorder.py lines
948-966): a header docstring with the description, session id and tool
name, the raw tool code, and an embedded TOOL_METADATA block. -/
def enhanced_tool_code
    (tool_name tool_description tool_code session_id file_name : String) : String :=
  "\"\"\"\n" ++ tool_description ++ "\n\nGenerated from browser recording session: "
    ++ session_id ++ "\nTool Name: " ++ tool_name ++ "\n\"\"\"\n\n"
    ++ tool_code ++ "\n\n"
    ++ "TOOL_METADATA = \x7b\n"
    ++ "    \"name\": \"" ++ tool_name ++ "\",\n"
    ++ "    \"description\": \"" ++ tool_description ++ "\",\n"
    ++ "    \"generated_from_recording\": True,\n"
    ++ "    \"recording_session_id\": \"" ++ session_id ++ "\",\n"
    ++ "    \"file_name\": \"" ++ file_name ++ "\",\n"
    ++ "    \"registered_as_agent\": True\n\x7d\n"

/-- The sibling metadata JSON written by save_local_copy (recorder.py lines
978-991). -/
def metadata_json
    (tool_name tool_description file_name session_id created_at : String) : String :=
  "\x7b\n  \"name\": \"" ++ tool_name ++ "\",\n  \"description\": \""
    ++ tool_description ++ "\",\n  \"file_name\": \"" ++ file_name
    ++ "\",\n  \"generated_from_recording\": true,\n  \"recording_session_id\": \""
    ++ session_id ++ "\",\n  \"created_at\": \"" ++ created_at
    ++ "\",\n  \"type\": \"browser_automation\",\n  \"registered_as_agent\": true\n\x7d"

/-- Which of the three filesystem operations of save_local_copy succeed:
makedirs, the tool file write and the metadata file write. -/
structure FsEnv where
  mkdirOk : Bool
  writeToolOk : Bool
  writeMetaOk : Bool
deriving Repr, DecidableEq

/-- Filesystem environment in which every operation succeeds. -/
def FsEnv.allOk : FsEnv := { mkdirOk := true, writeToolOk := true, writeMetaOk := true }

/-- save_local_copy (recorder.py lines 937-996): generates a random
filename, creates the tools directory, writes the enhanced tool source and
the sibling metadata JSON file, returning true; any raised exception is
caught and false is returned, with the effects performed before the failing
operation already carried out. -/
def save_local_copy
    (tool_name tool_description tool_code session_id : String)
    (seed : Nat) (created_at : String) (fs : FsEnv) : Bool × List Effect :=
  let fname := clean_name seed
  let toolPath := TOOLS_DIR ++ "/" ++ fname
  let metaPath := TOOLS_DIR ++ "/" ++ metadata_file_name seed
  if fs.mkdirOk then
    if fs.writeToolOk then
      if fs.writeMetaOk then
        (true,
         [Effect.mkdir TOOLS_DIR,
          Effect.fileWrite toolPath
            (enhanced_tool_code tool_name tool_description tool_code session_id fname),
          Effect.fileWrite metaPath
            (metadata_json tool_name tool_description fname session_id created_at)])
      else
        (false,
         [Effect.mkdir TOOLS_DIR,
          Effect.fileWrite toolPath
            (enhanced_tool_code tool_name tool_description tool_code session_id fname)])
    else
      (false, [Effect.mkdir TOOLS_DIR])
  else
    (false, [])

/-- save_tool_to_resources (recorder.py lines 836-935): validates that tool
name, tool code and session id are all non-empty, returning false before
any network or filesystem operation otherwise; then POSTs the agent-wrapper
payload to /agents/register.  On a 200 response it also performs the local
save and returns true regardless of the local outcome; on any other status
or a transport exception it falls back to the local save and returns its
result.  registerResp is none for a transport exception and some status for
a received response. -/
def save_tool_to_resources
    (tool_name tool_description tool_code session_id : String)
    (registerResp : Option Nat) (seed : Nat) (created_at : String) (fs : FsEnv) :
    Bool × List Effect :=
  if tool_name = "" ∨ tool_code = "" ∨ session_id = "" then
    (false, [])
  else
    let postEff := Effect.netPost (BACKEND_API_URL ++ "/agents/register")
    let localResult :=
      save_local_copy tool_name tool_description tool_code session_id seed created_at fs
    match registerResp with
    | none => (localResult.1, postEff :: localResult.2)
    | some status =>
      if status = 200 then (true, postEff :: localResult.2)
      else (localResult.1, postEff :: localResult.2)

/-! Helper lemmas shared by the claim theorems. -/

theorem check_fully_eq_recording (o : HttpOutcome (Option ExtensionStatusBody)) :
    (check_extension_connection o).fully_connected
      = (check_extension_connection o).recording_ready := by
  cases o with
  | exn => rfl
  | response status body =>
    by_cases hs : status = 200
    · cases body <;> simp [check_extension_connection, hs, mkConnectionStatus, allFalseStatus]
    · simp [check_extension_connection, hs, mkConnectionStatus]

theorem alphanum_lower_length : ALPHANUM_LOWER.length = 36 := rfl

theorem random_suffix_length (seed : Nat) : (random_suffix seed).length = 8 := rfl

theorem random_suffix_chars_mem (seed : Nat) :
    ∀ c ∈ (random_suffix seed).toList, c ∈ ALPHANUM_LOWER := by
  intro c hc
  have hrw : (random_suffix seed).toList
      = (List.range 8).map fun i => ALPHANUM_LOWER.getD ((seed / 36 ^ i) % 36) 'a' := rfl
  rw [hrw] at hc
  obtain ⟨i, _, rfl⟩ := List.mem_map.mp hc
  have hlt : (seed / 36 ^ i) % 36 < ALPHANUM_LOWER.length := by
    rw [alphanum_lower_length]
    exact Nat.mod_lt _ (by norm_num)
  rw [List.getD_eq_getElem _ _ hlt]
  exact List.getElem_mem hlt

/-! Theorems settling the claims. -/

/-- Claim C5: check_extension_connection never raises; on every transport
failure (exception or non-200 status) it returns the all-false connection
status instead of propagating an error. -/
theorem check_connection_failure_all_false
    (o : HttpOutcome (Option ExtensionStatusBody)) (h : o.isFailure = true) :
    check_extension_connection o = allFalseStatus := by
  cases o with
  | exn => rfl
  | response status body =>
    have hs : status ≠ 200 := by simpa [HttpOutcome.isFailure] using h
    simp [check_extension_connection, hs, mkConnectionStatus, allFalseStatus]

theorem check_connection_failure_all_false_witness :
    (HttpOutcome.exn : HttpOutcome (Option ExtensionStatusBody)).isFailure = true ∧
    check_extension_connection (HttpOutcome.exn : HttpOutcome (Option ExtensionStatusBody))
      = allFalseStatus :=
  ⟨rfl, check_connection_failure_all_false HttpOutcome.exn rfl⟩

/-- Claim C4: for every connection status actually produced by
check_extension_connection, the start click issues a session-create request
exactly when the session name is non-empty and recording_ready holds: an
empty name never sends a request, and recording_ready false rejects the
start even with a non-empty name. -/
theorem start_request_iff_name_and_ready
    (o : HttpOutcome (Option ExtensionStatusBody)) (sessionName : String) :
    start_click_issues_request (check_extension_connection o) sessionName
      = (!(sessionName == "") && (check_extension_connection o).recording_ready) := by
  have hc := check_fully_eq_recording o
  cases hr : (check_extension_connection o).recording_ready <;>
    cases hn : (sessionName == "") <;>
      simp [start_click_issues_request, start_button_disabled, hc, hr, hn]

/-- Claim C6: after every successful stop (200 response with a session
object), both active-session identifiers are removed from client state and
the returned session is stored in the last completed slot. -/
theorem stop_success_clears_active_session
    (st : ClientState) (session : RecordingSession) :
    (stop_recording (HttpOutcome.response 200 (some session)) st).1
      = { recording_session_id := none, recording_session_name := none,
          last_completed_session := some session } := rfl

/-- Claim C7: a failed start (non-200 status or transport error) leaves the
client state unchanged, and so does a failed stop; each failure only
produces a displayed error message. -/
theorem failed_start_and_stop_leave_state_unchanged
    (sessionName description : String)
    (r1 : HttpOutcome (Option StartBody)) (r2 : HttpOutcome (Option RecordingSession))
    (st1 st2 : ClientState)
    (h1 : r1.isFailure = true) (h2 : r2.isFailure = true) :
    (start_recording_with_extension sessionName description r1 st1).1 = st1 ∧
    (start_recording_with_extension sessionName description r1 st1).2.1.isError = true ∧
    (stop_recording r2 st2).1 = st2 ∧
    (stop_recording r2 st2).2.1.isError = true := by
  refine ⟨?_, ?_, ?_, ?_⟩
  · cases r1 with
    | exn => rfl
    | response status body =>
      have hs : status ≠ 200 := by simpa [HttpOutcome.isFailure] using h1
      simp [start_recording_with_extension, hs]
  · cases r1 with
    | exn => rfl
    | response status body =>
      have hs : status ≠ 200 := by simpa [HttpOutcome.isFailure] using h1
      simp [start_recording_with_extension, hs, StartOutcome.isError]
  · cases r2 with
    | exn => rfl
    | response status body =>
      have hs : status ≠ 200 := by simpa [HttpOutcome.isFailure] using h2
      simp [stop_recording, hs]
  · cases r2 with
    | exn => rfl
    | response status body =>
      have hs : status ≠ 200 := by simpa [HttpOutcome.isFailure] using h2
      simp [stop_recording, hs, StopOutcome.isError]

theorem failed_start_and_stop_leave_state_unchanged_witness :
    (HttpOutcome.exn : HttpOutcome (Option StartBody)).isFailure = true ∧
    (HttpOutcome.response 500 none : HttpOutcome (Option RecordingSession)).isFailure = true ∧
    ((start_recording_with_extension "Login Flow" ""
        (HttpOutcome.exn : HttpOutcome (Option StartBody))
        { recording_session_id := none, recording_session_name := none,
          last_completed_session := none }).1
      = { recording_session_id := none, recording_session_name := none,
          last_completed_session := none } ∧
    (start_recording_with_extension "Login Flow" ""
        (HttpOutcome.exn : HttpOutcome (Option StartBody))
        { recording_session_id := none, recording_session_name := none,
          last_completed_session := none }).2.1.isError = true ∧
    (stop_recording (HttpOutcome.response 500 none)
        { recording_session_id := some "sess-1", recording_session_name := some "Login Flow",
          last_completed_session := none }).1
      = { recording_session_id := some "sess-1", recording_session_name := some "Login Flow",
          last_completed_session := none } ∧
    (stop_recording (HttpOutcome.response 500 none)
        { recording_session_id := some "sess-1", recording_session_name := some "Login Flow",
          last_completed_session := none }).2.1.isError = true) :=
  ⟨rfl, rfl,
   failed_start_and_stop_leave_state_unchanged "Login Flow" "" HttpOutcome.exn
     (HttpOutcome.response 500 none)
     { recording_session_id := none, recording_session_name := none,
       last_completed_session := none }
     { recording_session_id := some "sess-1", recording_session_name := some "Login Flow",
       last_completed_session := none } rfl rfl⟩

/-- Claim C10: polling with no active-session id in client state performs
no network request and reports nothing, leaving the client state
unchanged. -/
theorem poll_without_session_is_noop
    (resp : HttpOutcome (Option RecordingSession)) (st : ClientState)
    (h : st.recording_session_id = none) :
    get_recording_status resp st = (st, PollOutcome.noSession, []) := by
  simp [get_recording_status, h]

theorem poll_without_session_is_noop_witness :
    ({ recording_session_id := none, recording_session_name := none,
       last_completed_session := none } : ClientState).recording_session_id = none ∧
    get_recording_status (HttpOutcome.exn : HttpOutcome (Option RecordingSession))
        { recording_session_id := none, recording_session_name := none,
          last_completed_session := none }
      = ({ recording_session_id := none, recording_session_name := none,
           last_completed_session := none }, PollOutcome.noSession, []) :=
  ⟨rfl,
   poll_without_session_is_noop HttpOutcome.exn
     { recording_session_id := none, recording_session_name := none,
       last_completed_session := none } rfl⟩

/-- Claim C9: every successful poll of an active session reports the
current action count (equal to the actionsCount field under the data-model
invariant that it counts the actions list) and displays the last five
entries of the actions sequence exactly as returned, in order (the
displayed list is a suffix of the sequence); with fewer than five entries,
all of them are displayed. -/
theorem poll_success_reports_count_and_last_five
    (st : ClientState) (sid : String) (session : RecordingSession)
    (hsid : st.recording_session_id = some sid)
    (hcount : session.actionsCount = session.actions.length) :
    (get_recording_status (HttpOutcome.response 200 (some session)) st).1 = st ∧
    (get_recording_status (HttpOutcome.response 200 (some session)) st).2.1.reportedCount
      = some session.actionsCount ∧
    (get_recording_status (HttpOutcome.response 200 (some session)) st).2.1.displayedActions
      = session.actions.drop (session.actions.length - 5) ∧
    List.IsSuffix
      ((get_recording_status (HttpOutcome.response 200 (some session)) st).2.1.displayedActions)
      session.actions ∧
    (session.actions.length < 5 →
      (get_recording_status (HttpOutcome.response 200 (some session)) st).2.1.displayedActions
        = session.actions) := by
  by_cases hn : 0 < session.actions.length
  · have hrun : get_recording_status (HttpOutcome.response 200 (some session)) st
        = (st, PollOutcome.captured session.actions.length
                 (session.actions.drop (session.actions.length - 5)),
           [Effect.netGet (BACKEND_API_URL ++ "/recorder/sessions/" ++ sid)]) := by
      simp [get_recording_status, hsid, hn]
    refine ⟨by rw [hrun], ?_, ?_, ?_, ?_⟩
    · rw [hrun, hcount]; rfl
    · rw [hrun]; rfl
    · rw [hrun]
      exact List.drop_suffix _ _
    · intro hlt
      rw [hrun]
      simp [PollOutcome.displayedActions, Nat.sub_eq_zero_of_le (Nat.le_of_lt hlt)]
  · have hzero : session.actions.length = 0 := Nat.eq_zero_of_not_pos hn
    have hnil : session.actions = [] := List.length_eq_zero.mp hzero
    have hrun : get_recording_status (HttpOutcome.response 200 (some session)) st
        = (st, PollOutcome.noActionsYet,
           [Effect.netGet (BACKEND_API_URL ++ "/recorder/sessions/" ++ sid)]) := by
      simp [get_recording_status, hsid, hzero]
    refine ⟨by rw [hrun], ?_, ?_, ?_, ?_⟩
    · rw [hrun, hcount, hzero]; rfl
    · rw [hrun, hnil]; rfl
    · rw [hrun]
      show List.IsSuffix ([] : List RecordedAction) session.actions
      exact List.nil_suffix
    · intro _
      rw [hrun, hnil]; rfl

theorem poll_success_reports_count_and_last_five_witness :
    ({ recording_session_id := some "sess-1", recording_session_name := some "Login Flow",
       last_completed_session := none } : ClientState).recording_session_id = some "sess-1" ∧
    ({ id := "sess-1", name := "Login Flow", status := "recording", actionsCount := 3,
       duration := 0,
       actions := [{ actionType := "navigate", description := some "go" },
                   { actionType := "click", description := some "press" },
                   { actionType := "type", description := none }] } :
        RecordingSession).actionsCount
      = ({ id := "sess-1", name := "Login Flow", status := "recording", actionsCount := 3,
           duration := 0,
           actions := [{ actionType := "navigate", description := some "go" },
                       { actionType := "click", description := some "press" },
                       { actionType := "type", description := none }] } :
            RecordingSession).actions.length ∧
    ((get_recording_status
        (HttpOutcome.response 200 (some
          { id := "sess-1", name := "Login Flow", status := "recording", actionsCount := 3,
            duration := 0,
            actions := [{ actionType := "navigate", description := some "go" },
                        { actionType := "click", description := some "press" },
                        { actionType := "type", description := none }] }))
        { recording_session_id := some "sess-1", recording_session_name := some "Login Flow",
          last_completed_session := none }).2.1.reportedCount = some 3 ∧
     (get_recording_status
        (HttpOutcome.response 200 (some
          { id := "sess-1", name := "Login Flow", status := "recording", actionsCount := 3,
            duration := 0,
            actions := [{ actionType := "navigate", description := some "go" },
                        { actionType := "click", description := some "press" },
                        { actionType := "type", description := none }] }))
        { recording_session_id := some "sess-1", recording_session_name := some "Login Flow",
          last_completed_session := none }).2.1.displayedActions
       = [{ actionType := "navigate", description := some "go" },
          { actionType := "click", description := some "press" },
          { actionType := "type", description := none }]) := by
  refine ⟨rfl, rfl, ?_, ?_⟩
  · exact (poll_success_reports_count_and_last_five
      { recording_session_id := some "sess-1", recording_session_name := some "Login Flow",
        last_completed_session := none } "sess-1"
      { id := "sess-1", name := "Login Flow", status := "recording", actionsCount := 3,
        duration := 0,
        actions := [{ actionType := "navigate", description := some "go" },
                    { actionType := "click", description := some "press" },
                    { actionType := "type", description := none }] } rfl rfl).2.1
  · exact (poll_success_reports_count_and_last_five
      { recording_session_id := some "sess-1", recording_session_name := some "Login Flow",
        last_completed_session := none } "sess-1"
      { id := "sess-1", name := "Login Flow", status := "recording", actionsCount := 3,
        duration := 0,
        actions := [{ actionType := "navigate", description := some "go" },
                    { actionType := "click", description := some "press" },
                    { actionType := "type", description := none }] } rfl rfl).2.2.2.2
      (by decide)

/-- Claim C1: after a first successful generation for a session id, a
second call for the same id in the same client session (no cache clear)
returns the identical tool code whatever the backend would now answer, and
across the two calls exactly one backend generate-tool request is issued. -/
theorem generate_second_call_cached
    (sessionId code : String) (st : GenerationState)
    (resp2 : HttpOutcome (Option String))
    (h : st.lookup sessionId = none) :
    (generate_tool_code sessionId (HttpOutcome.response 200 (some code)) st).2.1
      = GenerateOutcome.generated code ∧
    (generate_tool_code sessionId resp2
       (generate_tool_code sessionId (HttpOutcome.response 200 (some code)) st).1).2.1
      = GenerateOutcome.generated code ∧
    ((generate_tool_code sessionId (HttpOutcome.response 200 (some code)) st).2.2
       ++ (generate_tool_code sessionId resp2
            (generate_tool_code sessionId (HttpOutcome.response 200 (some code)) st).1).2.2).countP
      Effect.isNetwork = 1 := by
  have hfirst : generate_tool_code sessionId (HttpOutcome.response 200 (some code)) st
      = ({ cache := (sessionId,
             { tool_code := code,
               tool_name := "browser_automation_" ++ sessionId.take 6,
               tool_description :=
                 "Automated browser workflow generated from recorded session" }) :: st.cache },
         GenerateOutcome.generated code,
         [Effect.netPost (BACKEND_API_URL ++ "/recorder/sessions/" ++ sessionId
            ++ "/generate-tool")]) := by
    simp [generate_tool_code, h]
  have hsecond : generate_tool_code sessionId resp2
      (generate_tool_code sessionId (HttpOutcome.response 200 (some code)) st).1
      = ((generate_tool_code sessionId (HttpOutcome.response 200 (some code)) st).1,
         GenerateOutcome.generated code, []) := by
    rw [hfirst]
    simp [generate_tool_code, GenerationState.lookup, List.lookup]
  refine ⟨by rw [hfirst], by rw [hsecond], ?_⟩
  rw [hsecond, hfirst]
  rfl

theorem generate_second_call_cached_witness :
    ({ cache := [] } : GenerationState).lookup "sess-1" = none ∧
    ((generate_tool_code "sess-1"
        (HttpOutcome.response 200 (some "def run(): pass")) { cache := [] }).2.1
      = GenerateOutcome.generated "def run(): pass" ∧
    (generate_tool_code "sess-1" (HttpOutcome.exn : HttpOutcome (Option String))
       (generate_tool_code "sess-1"
         (HttpOutcome.response 200 (some "def run(): pass")) { cache := [] }).1).2.1
      = GenerateOutcome.generated "def run(): pass" ∧
    ((generate_tool_code "sess-1"
        (HttpOutcome.response 200 (some "def run(): pass")) { cache := [] }).2.2
       ++ (generate_tool_code "sess-1" (HttpOutcome.exn : HttpOutcome (Option String))
            (generate_tool_code "sess-1"
              (HttpOutcome.response 200 (some "def run(): pass")) { cache := [] }).1).2.2).countP
      Effect.isNetwork = 1) :=
  ⟨rfl, generate_second_call_cached "sess-1" "def run(): pass" { cache := [] }
          HttpOutcome.exn rfl⟩

/-- Claim C8: saving with an empty tool name, tool code or session id
performs zero network requests and zero filesystem operations and returns
false. -/
theorem save_invalid_input_noop
    (tool_name tool_description tool_code session_id : String)
    (registerResp : Option Nat) (seed : Nat) (created_at : String) (fs : FsEnv)
    (h : tool_name = "" ∨ tool_code = "" ∨ session_id = "") :
    save_tool_to_resources tool_name tool_description tool_code session_id
        registerResp seed created_at fs = (false, []) ∧
    (save_tool_to_resources tool_name tool_description tool_code session_id
        registerResp seed created_at fs).2.countP Effect.isNetwork = 0 ∧
    (save_tool_to_resources tool_name tool_description tool_code session_id
        registerResp seed created_at fs).2.countP Effect.isFilesystem = 0 := by
  have hrun : save_tool_to_resources tool_name tool_description tool_code session_id
      registerResp seed created_at fs = (false, []) := by
    unfold save_tool_to_resources
    rw [if_pos h]
  exact ⟨hrun, by rw [hrun]; rfl, by rw [hrun]; rfl⟩

theorem save_invalid_input_noop_witness :
    (("" : String) = "" ∨ ("print(1)" : String) = "" ∨ ("sess-1" : String) = "") ∧
    save_tool_to_resources "" "a tool" "print(1)" "sess-1" (some 200) 0 "2025-01-01" FsEnv.allOk
      = (false, []) :=
  ⟨Or.inl rfl,
   (save_invalid_input_noop "" "a tool" "print(1)" "sess-1" (some 200) 0 "2025-01-01"
      FsEnv.allOk (Or.inl rfl)).1⟩

/-- Claim C2: with non-empty inputs and a failing remote registration
(non-200 response or transport error), save falls back to the local path,
writes exactly one source file named browser_tool_ plus a random
8-character lowercase-alphanumeric suffix plus .py and exactly one sibling
metadata JSON file derived from the same name, and returns true, the local
writes succeeding. -/
theorem save_remote_failure_local_fallback
    (tool_name tool_description tool_code session_id : String)
    (registerResp : Option Nat) (seed : Nat) (created_at : String)
    (h1 : tool_name ≠ "") (h2 : tool_code ≠ "") (h3 : session_id ≠ "")
    (hfail : registerResp = none ∨ ∃ s, registerResp = some s ∧ s ≠ 200) :
    (save_tool_to_resources tool_name tool_description tool_code session_id
        registerResp seed created_at FsEnv.allOk).1 = true ∧
    (∃ c1 c2, (save_tool_to_resources tool_name tool_description tool_code session_id
        registerResp seed created_at FsEnv.allOk).2.filter Effect.isFileWrite
      = [Effect.fileWrite (TOOLS_DIR ++ "/" ++ clean_name seed) c1,
         Effect.fileWrite (TOOLS_DIR ++ "/" ++ metadata_file_name seed) c2]) ∧
    clean_name seed = "browser_tool_" ++ random_suffix seed ++ ".py" ∧
    metadata_file_name seed = "browser_tool_" ++ random_suffix seed ++ "_metadata.json" ∧
    (random_suffix seed).length = 8 ∧
    (∀ c ∈ (random_suffix seed).toList, c ∈ ALPHANUM_LOWER) := by
  have hval : ¬(tool_name = "" ∨ tool_code = "" ∨ session_id = "") := by
    simp [h1, h2, h3]
  have hrun : save_tool_to_resources tool_name tool_description tool_code session_id
      registerResp seed created_at FsEnv.allOk
      = ((save_local_copy tool_name tool_description tool_code session_id seed
            created_at FsEnv.allOk).1,
         Effect.netPost (BACKEND_API_URL ++ "/agents/register")
           :: (save_local_copy tool_name tool_description tool_code session_id seed
                created_at FsEnv.allOk).2) := by
    rcases hfail with hnone | ⟨s, hs, hs200⟩
    · unfold save_tool_to_resources
      rw [if_neg hval, hnone]
    · unfold save_tool_to_resources
      rw [if_neg hval, hs]
      simp [hs200]
  refine ⟨by rw [hrun]; rfl, ?_, rfl, rfl, random_suffix_length seed,
    random_suffix_chars_mem seed⟩
  refine ⟨enhanced_tool_code tool_name tool_description tool_code session_id (clean_name seed),
    metadata_json tool_name tool_description (clean_name seed) session_id created_at, ?_⟩
  rw [hrun]; rfl

theorem save_remote_failure_local_fallback_witness :
    ("login-tool" : String) ≠ "" ∧ ("print(1)" : String) ≠ "" ∧ ("sess-1" : String) ≠ "" ∧
    ((some 500 : Option Nat) = none ∨ ∃ s, (some 500 : Option Nat) = some s ∧ s ≠ 200) ∧
    ((save_tool_to_resources "login-tool" "logs in" "print(1)" "sess-1" (some 500) 0
        "2025-01-01" FsEnv.allOk).1 = true ∧
     (∃ c1 c2, (save_tool_to_resources "login-tool" "logs in" "print(1)" "sess-1" (some 500) 0
        "2025-01-01" FsEnv.allOk).2.filter Effect.isFileWrite
       = [Effect.fileWrite (TOOLS_DIR ++ "/" ++ clean_name 0) c1,
          Effect.fileWrite (TOOLS_DIR ++ "/" ++ metadata_file_name 0) c2]) ∧
     (random_suffix 0).length = 8) := by
  have hmain := save_remote_failure_local_fallback "login-tool" "logs in" "print(1)" "sess-1"
    (some 500) 0 "2025-01-01" (by decide) (by decide) (by decide)
    (Or.inr ⟨500, rfl, by decide⟩)
  exact ⟨by decide, by decide, by decide, Or.inr ⟨500, rfl, by decide⟩,
    hmain.1, hmain.2.1, hmain.2.2.2.2.1⟩

/-- Claim C3: with non-empty inputs and a successful remote registration
(200 response), the local save step is still performed — one tool file and
one sibling metadata file are written — and save returns true. -/
theorem save_remote_success_still_writes_local
    (tool_name tool_description tool_code session_id : String)
    (seed : Nat) (created_at : String)
    (h1 : tool_name ≠ "") (h2 : tool_code ≠ "") (h3 : session_id ≠ "") :
    (save_tool_to_resources tool_name tool_description tool_code session_id
        (some 200) seed created_at FsEnv.allOk).1 = true ∧
    (∃ c1 c2, (save_tool_to_resources tool_name tool_description tool_code session_id
        (some 200) seed created_at FsEnv.allOk).2.filter Effect.isFileWrite
      = [Effect.fileWrite (TOOLS_DIR ++ "/" ++ clean_name seed) c1,
         Effect.fileWrite (TOOLS_DIR ++ "/" ++ metadata_file_name seed) c2]) := by
  have hval : ¬(tool_name = "" ∨ tool_code = "" ∨ session_id = "") := by
    simp [h1, h2, h3]
  have hrun : save_tool_to_resources tool_name tool_description tool_code session_id
      (some 200) seed created_at FsEnv.allOk
      = (true,
         Effect.netPost (BACKEND_API_URL ++ "/agents/register")
           :: (save_local_copy tool_name tool_description tool_code session_id seed
                created_at FsEnv.allOk).2) := by
    unfold save_tool_to_resources
    rw [if_neg hval]
    rfl
  exact ⟨by rw [hrun],
    ⟨enhanced_tool_code tool_name tool_description tool_code session_id (clean_name seed),
     metadata_json tool_name tool_description (clean_name seed) session_id created_at,
     by rw [hrun]; rfl⟩⟩

theorem save_remote_success_still_writes_local_witness :
    ("login-tool" : String) ≠ "" ∧ ("print(1)" : String) ≠ "" ∧ ("sess-1" : String) ≠ "" ∧
    ((save_tool_to_resources "login-tool" "logs in" "print(1)" "sess-1" (some 200) 0
        "2025-01-01" FsEnv.allOk).1 = true ∧
     (∃ c1 c2, (save_tool_to_resources "login-tool" "logs in" "print(1)" "sess-1" (some 200) 0
        "2025-01-01" FsEnv.allOk).2.filter Effect.isFileWrite
       = [Effect.fileWrite (TOOLS_DIR ++ "/" ++ clean_name 0) c1,
          Effect.fileWrite (TOOLS_DIR ++ "/" ++ metadata_file_name 0) c2])) :=
  ⟨by decide, by decide, by decide,
   save_remote_success_still_writes_local "login-tool" "logs in" "print(1)" "sess-1" 0
     "2025-01-01" (by decide) (by decide) (by decide)⟩

end RecorderPipeline
